import Mathlib

/-!
Shallow embedding of the pince-nez eyeglasses-generation pipeline
(src/run.py, the legacy iteration, and src/script/run.py, the refined
iteration).  Vertex coordinates are modelled as exact rationals; Blender
mesh objects become explicit lists of vertices and edges; the Blender
operator calls that only set parameters (mesh.bisect, transform.translate)
become explicit records of the parameters the source passes.
-/

structure Coord where
  x : ℚ
  y : ℚ
  z : ℚ
deriving DecidableEq

structure Vert where
  index : ℕ
  co : Coord
  sel : Bool
deriving DecidableEq

structure Edge where
  v1 : ℕ
  v2 : ℕ
  sel : Bool
deriving DecidableEq

structure Mesh where
  verts : List Vert
  edges : List Edge
deriving DecidableEq

def Coord.sub (a b : Coord) : Coord :=
  ⟨a.x - b.x, a.y - b.y, a.z - b.z⟩

def Coord.dot (a b : Coord) : ℚ :=
  a.x * b.x + a.y * b.y + a.z * b.z

def mirrorX (p : Coord) : Coord :=
  ⟨-p.x, p.y, p.z⟩

/-- The parameters of one bpy.ops.mesh.bisect invocation. -/
structure BisectCall where
  plane_co : Coord
  plane_no : Coord
  clear_inner : Bool
  clear_outer : Bool
deriving DecidableEq

/-- bisect from src/script/run.py: cut plane through (x_coord, 0, z_translation)
with normal (1, 0, z_tilt). -/
def bisect (x_coord : ℚ) (clear_inner clear_outer : Bool) (z_tilt z_translation : ℚ) :
    BisectCall :=
  ⟨⟨x_coord, 0, z_translation⟩, ⟨1, 0, z_tilt⟩, clear_inner, clear_outer⟩

def onPlane (c : BisectCall) (p : Coord) : Prop :=
  Coord.dot (Coord.sub p c.plane_co) c.plane_no = 0

/-- Modelled from the spec: clearInner and clearOuter delete the geometry
strictly on the negative, respectively positive, side of the plane by the
sign of (vertex - planePoint) . planeNormal.  The Blender operator that
implements the clearing is not part of the repository. -/
def removedBy (c : BisectCall) (p : Coord) : Prop :=
  (c.clear_inner = true ∧ Coord.dot (Coord.sub p c.plane_co) c.plane_no < 0) ∨
  (c.clear_outer = true ∧ Coord.dot (Coord.sub p c.plane_co) c.plane_no > 0)

/-- separate_left_lens_area from src/script/run.py. -/
def separate_left_lens_area (bridge_width bridge_slant : ℚ) : BisectCall :=
  bisect (-1 * bridge_width / 2) false true bridge_slant 0

/-- separate_right_lens_area from src/script/run.py. -/
def separate_right_lens_area (bridge_width bridge_slant : ℚ) : BisectCall :=
  bisect (bridge_width / 2) true false (-1 * bridge_slant) 0

/-- cut_bridge from src/script/run.py: the two boundary cuts of the bridge piece. -/
def cut_bridge (bridge_width bridge_slant : ℚ) : List BisectCall :=
  [bisect (-1 * bridge_width / 2) true false bridge_slant 0,
   bisect (bridge_width / 2) false true (-1 * bridge_slant) 0]

/-- find_nosepad_peak_vertices_z_range from src/script/run.py. -/
def find_nosepad_peak_vertices_z_range (bottom_of_bridge bottom_of_nosepad : ℚ) : ℚ × ℚ :=
  let length := bottom_of_bridge - bottom_of_nosepad
  let peak := bottom_of_bridge - 0.4 * length
  let delta := 0.05 * length
  (peak + delta, peak - delta)

/-- find_nosepad_peak_height from src/run.py (the legacy iteration). -/
def find_nosepad_peak_height (bottom_of_bridge bottom_of_nosepad : ℚ) : ℚ × ℚ :=
  let distance := bottom_of_bridge - bottom_of_nosepad
  let peak := bottom_of_bridge - 0.5 * distance
  let delta := 0.15 * distance
  (peak + delta, peak - delta)

/-- The x translations the alignment step applies to the three pieces. -/
structure AlignTranslations where
  left_lens : Coord
  bridge : Coord
  right_lens : Coord
deriving DecidableEq

/-- align_left_lens_area_and_bridge from src/script/run.py translates the bridge
object by (gap, 0, 0); the preceding box alignment acts along the y axis only. -/
def align_left_lens_area_and_bridge (gap : ℚ) : Coord :=
  ⟨gap, 0, 0⟩

/-- align_right_lens_area_and_bridge from src/script/run.py translates the right
lens object by (gap * 2, 0, 0). -/
def align_right_lens_area_and_bridge (gap : ℚ) : Coord :=
  ⟨gap * 2, 0, 0⟩

/-- align from src/script/run.py: the left lens receives no x translation. -/
def align (gap : ℚ) : AlignTranslations :=
  ⟨⟨0, 0, 0⟩, align_left_lens_area_and_bridge gap, align_right_lens_area_and_bridge gap⟩

/-- form_lens_and_bridge from src/script/run.py computes the merge gap as 4
percent of the bridge object's x extent. -/
def form_lens_and_bridge_gap (bridge_dim_x : ℚ) : ℚ :=
  0.04 * bridge_dim_x

/-- The alignment translations produced inside form_lens_and_bridge. -/
def form_lens_and_bridge_align (bridge_dim_x : ℚ) : AlignTranslations :=
  align (form_lens_and_bridge_gap bridge_dim_x)

/-- get_spread_for_bridge from src/script/run.py.  half = (20 + 2) / 2 = 11 in
Python integer arithmetic; spread = range(-half, half + 1) trimmed of its first
and last element; each entry is x / half * max_val. -/
def get_spread_for_bridge (max_val : ℚ) (number_of_segments : ℕ) : List ℚ :=
  let half : ℕ := (number_of_segments + 2) / 2
  let spread : List ℤ := (List.range (2 * half + 1)).map (fun i : ℕ => (i : ℤ) - (half : ℤ))
  let trimmed : List ℤ := (spread.drop 1).dropLast
  trimmed.map (fun x : ℤ => (x : ℚ) / (half : ℚ) * max_val)

/-- compute_convergence_point from src/script/run.py: the z value at x = 0 of the
plane with normal (1, 0, max_slant) through (-bridge_width/2, 0, 0). -/
def compute_convergence_point (bridge_width max_slant : ℚ) : ℚ :=
  (bridge_width / 2) / (-1 * max_slant)

/-- bisect_bridge_for_resolution from src/script/run.py: one bisection per spread
slant, each through (0, 0, z_translation) with normal (1, 0, slant). -/
def bisect_bridge_for_resolution (bridge_width max_slant : ℚ) : List BisectCall :=
  let z_translation := compute_convergence_point bridge_width max_slant
  (get_spread_for_bridge max_slant 20).map
    (fun slant => bisect 0 false false slant z_translation)

/-- The error kinds of the pipeline.  Modelled from the spec: the source defines
no error type at all, so parameterError exists here only as the spec's name for
the abort that claim C8 expects; zeroDivisionError stands for the Python
ZeroDivisionError that compute_convergence_point raises when the slant is 0. -/
inductive PipelineError where
  | parameterError
  | zeroDivisionError
deriving DecidableEq

/-- The bisection plan form_lens_and_bridge derives from its parameters
(cut_bridge and bisect_bridge_for_resolution on the bridge piece, then the two
lens separations).  The source contains no validation branch; the only failure
is the division by zero inside compute_convergence_point. -/
def form_lens_and_bridge_bisect_plan (bridge_width bridge_slant : ℚ) :
    Except PipelineError (List BisectCall) :=
  if bridge_slant = 0 then Except.error PipelineError.zeroDivisionError
  else Except.ok (cut_bridge bridge_width bridge_slant ++
    bisect_bridge_for_resolution bridge_width bridge_slant ++
    [separate_left_lens_area bridge_width bridge_slant,
     separate_right_lens_area bridge_width bridge_slant])

instance : Std.Antisymm fun x1 x2 : ℚ => x1 ≤ x2 :=
  ⟨fun h1 h2 => le_antisymm h1 h2⟩

/-- The operator calls of the legacy orchestrator run in src/run.py, in source
order.  Pure computations (find_max_x, find_bridge_area, find_key_values'
return values) are not operator calls and carry no constructor of their own
except where the source names a distinct selection or deformation step. -/
inductive PipelineOp where
  | extrude_curve_op
  | recolor
  | rotate
  | origin_to_center_of_mass
  | scale_up
  | move_to_origin_op
  | deselect
  | remove_doubles
  | bisect_center
  | find_key_values_op
  | select_below_bridge
  | shrink_pad
  | select_peak
  | extrude_pad
  | reset_norm_op
  | bisect_bridge_area_op
  | bisect_mid_lens
  | bend
  | select_mid_bridge
  | protrude_bridge_op
  | scale_to_lifesize_op
  | mode_object
  | cache_vertices
deriving DecidableEq

/-- run from src/run.py: the orchestrator takes the numeric lifesize and the
boolean protruded_bridge toggle; the three protrusion steps are guarded by the
toggle and everything else is unconditional. -/
def run_ops (protruded_bridge : Bool) : List PipelineOp :=
  [PipelineOp.extrude_curve_op, PipelineOp.mode_object, PipelineOp.recolor,
   PipelineOp.rotate, PipelineOp.origin_to_center_of_mass, PipelineOp.scale_up,
   PipelineOp.move_to_origin_op, PipelineOp.deselect, PipelineOp.remove_doubles,
   PipelineOp.bisect_center, PipelineOp.deselect, PipelineOp.find_key_values_op,
   PipelineOp.deselect, PipelineOp.select_below_bridge, PipelineOp.shrink_pad,
   PipelineOp.deselect, PipelineOp.select_peak, PipelineOp.extrude_pad,
   PipelineOp.deselect,
   PipelineOp.deselect, PipelineOp.select_below_bridge, PipelineOp.shrink_pad,
   PipelineOp.deselect, PipelineOp.select_peak, PipelineOp.extrude_pad,
   PipelineOp.deselect, PipelineOp.reset_norm_op,
   PipelineOp.bisect_bridge_area_op, PipelineOp.bisect_mid_lens, PipelineOp.bend] ++
  (if protruded_bridge then
    [PipelineOp.deselect, PipelineOp.select_mid_bridge, PipelineOp.protrude_bridge_op]
   else []) ++
  [PipelineOp.deselect, PipelineOp.scale_to_lifesize_op, PipelineOp.mode_object]

/-- in_range from src/script/run.py (inclusive on both ends). -/
def in_range (max_val min_val val : ℚ) : Bool :=
  decide (val ≤ max_val) && decide (val ≥ min_val)

/-- find_max_and_min_x_coord_of_object from src/script/run.py; none models the
Python ValueError on an empty vertex list. -/
def find_max_and_min_x_coord_of_object (verts : List Vert) : Option (ℚ × ℚ) :=
  match (verts.map fun v => v.co.x).max?, (verts.map fun v => v.co.x).min? with
  | some mx, some mn => some (mx, mn)
  | _, _ => none

/-- find_nosepad_x_coord_range from src/script/run.py: the band spans 18 percent
of the piece's width, anchored at max x for the left lens and at min x for the
right lens. -/
def find_nosepad_x_coord_range (verts : List Vert) (left_nosepad : Bool) :
    Option (ℚ × ℚ) :=
  match find_max_and_min_x_coord_of_object verts with
  | none => none
  | some (max_x, min_x) =>
    let width := max_x - min_x
    let nosepad_range_width := 0.18 * width
    if left_nosepad then some (max_x, max_x - nosepad_range_width)
    else some (min_x + nosepad_range_width, min_x)

/-- find_left_nosepad_x_coord_range from src/script/run.py. -/
def find_left_nosepad_x_coord_range (verts : List Vert) : Option (ℚ × ℚ) :=
  find_nosepad_x_coord_range verts true

/-- find_right_nosepad_x_coord_range from src/script/run.py. -/
def find_right_nosepad_x_coord_range (verts : List Vert) : Option (ℚ × ℚ) :=
  find_nosepad_x_coord_range verts false

/-- find_bottom_of_nosepad_region from src/script/run.py; none models the Python
ValueError that min raises on an empty sequence. -/
def find_bottom_of_nosepad_region (verts : List Vert) (max_x min_x : ℚ) : Option ℚ :=
  ((verts.filter fun v => in_range max_x min_x v.co.x).map fun v => v.co.z).min?

/-- A two-vertex lens piece used as concrete witness input. -/
def witnessLens : List Vert :=
  [⟨0, ⟨100, 0, 50⟩, false⟩, ⟨1, ⟨0, 0, 50⟩, false⟩]

/-- deselect_all_vertices from src/script/run.py (action DESELECT). -/
def deselect_all_vertices (verts : List Vert) : List Vert :=
  verts.map fun v => {v with sel := false}

/-- select_nosepad_peak_vertices from src/script/run.py: computes the bottom of
the nosepad region, derives the peak z band, deselects everything, then selects
exactly the vertices inside both the z band and the x range.  none models the
ValueError when the nosepad x range holds no vertex. -/
def select_nosepad_peak_vertices (verts : List Vert) (bottom_of_bridge max_x min_x : ℚ) :
    Option (List Vert) :=
  match find_bottom_of_nosepad_region verts max_x min_x with
  | none => none
  | some bottom_of_nosepad =>
    let r := find_nosepad_peak_vertices_z_range bottom_of_bridge bottom_of_nosepad
    some ((deselect_all_vertices verts).map fun v =>
      if in_range r.1 r.2 v.co.z && in_range max_x min_x v.co.x then {v with sel := true}
      else v)

/-- The selection state of the mesh at the moment create_left_nosepad in
src/script/run.py invokes shrink_nosepad: the source derives one selection
(select_nosepad_peak_vertices) and calls shrink_nosepad, then
extrude_nosepad_peak, with no selection change in between. -/
def create_left_nosepad_shrink_selection (verts : List Vert) (bottom_of_bridge : ℚ) :
    Option (List Vert) :=
  match find_left_nosepad_x_coord_range verts with
  | none => none
  | some (max_x, min_x) => select_nosepad_peak_vertices verts bottom_of_bridge max_x min_x

/-- deselect_all from src/run.py (guarded toggle; net effect deselects all). -/
def deselect_all (verts : List Vert) : List Vert :=
  verts.map fun v => {v with sel := false}

/-- select_all_nosepad_points from src/run.py: select every listed nosepad point
whose height is strictly below the upper bound. -/
def select_all_nosepad_points (nosepad_points : List ℕ) (upper_bound : ℚ)
    (verts : List Vert) : List Vert :=
  verts.map fun v =>
    if nosepad_points.contains v.index && decide (v.co.z < upper_bound) then
      {v with sel := true}
    else v

/-- select_nosepad_extrusion_points from src/run.py: select every listed nosepad
point whose height lies inside the closed peak band. -/
def select_nosepad_extrusion_points (upper_nosepad_peak bottom_nosepad_peak : ℚ)
    (verts : List Vert) (nosepad_points : List ℕ) : List Vert :=
  verts.map fun v =>
    if nosepad_points.contains v.index &&
        (decide (v.co.z ≤ upper_nosepad_peak) && decide (v.co.z ≥ bottom_nosepad_peak)) then
      {v with sel := true}
    else v

/-- The selection state at the scale_nosepad (shrink) call of the left-nosepad
block of run in src/run.py: deselect_all then select_all_nosepad_points. -/
def run_left_nosepad_shrink_selection (verts : List Vert) (left_nosepad_points : List ℕ)
    (bottom_of_bridge : ℚ) : List Vert :=
  select_all_nosepad_points left_nosepad_points bottom_of_bridge (deselect_all verts)

/-- The selection state at the extrude_nosepad call of the left-nosepad block of
run in src/run.py: deselect_all then select_nosepad_extrusion_points with the
peak band of find_nosepad_peak_height. -/
def run_left_nosepad_extrude_selection (verts : List Vert) (left_nosepad_points : List ℕ)
    (bottom_of_bridge bottom_of_nosepad : ℚ) : List Vert :=
  let r := find_nosepad_peak_height bottom_of_bridge bottom_of_nosepad
  select_nosepad_extrusion_points r.1 r.2 (deselect_all verts) left_nosepad_points

/-- The call order of create_left_nosepad in src/script/run.py. -/
def create_left_nosepad_ops : List PipelineOp :=
  [PipelineOp.cache_vertices, PipelineOp.select_peak, PipelineOp.shrink_pad,
   PipelineOp.extrude_pad, PipelineOp.reset_norm_op]

/-- The call order of the left-nosepad block of run in src/run.py. -/
def run_left_nosepad_ops : List PipelineOp :=
  [PipelineOp.deselect, PipelineOp.select_below_bridge, PipelineOp.shrink_pad,
   PipelineOp.deselect, PipelineOp.select_peak, PipelineOp.extrude_pad,
   PipelineOp.deselect]

/-- A five-vertex lens piece on which the script pipeline's shrink-time
selection visibly excludes a nosepad-region vertex below the bridge bottom. -/
def counterLens : List Vert :=
  [⟨0, ⟨100, 0, 50⟩, false⟩, ⟨1, ⟨0, 0, 50⟩, false⟩, ⟨2, ⟨90, 0, 0⟩, false⟩,
   ⟨3, ⟨90, 0, 2⟩, false⟩, ⟨4, ⟨85, 0, 6⟩, false⟩]

/-- cache_non_nosepad_vertices from src/script/run.py.  The range parameters of
its signature are unused in the source body: it caches every vertex with
y ≤ 0, keyed by vertex index. -/
def cache_non_nosepad_vertices (verts : List Vert)
    (range_max_x range_min_x range_max_z : ℚ) : List (ℕ × Coord) :=
  (verts.filter fun v => decide (v.co.y ≤ 0)).map fun v => (v.index, v.co)

/-- reset_normal_vertices from src/script/run.py: every cached index has its
position overwritten with the cached coordinate, unconditionally. -/
def reset_normal_vertices (verts : List Vert)
    (non_nosepad_vertices_map : List (ℕ × Coord)) : List Vert :=
  verts.map fun v =>
    match non_nosepad_vertices_map.lookup v.index with
    | some c => {v with co := c}
    | none => v

/-- A deformation standing for extrude_nosepad_peak in the witness: translate
every vertex by (0, 4, 2). -/
def witnessDeform1 (vs : List Vert) : List Vert :=
  vs.map fun v => {v with co := ⟨v.co.x, v.co.y + 4, v.co.z + 2⟩}

/-- A deformation standing for shrink_nosepad in the witness: offset every
vertex down by 1 in z. -/
def witnessDeform2 (vs : List Vert) : List Vert :=
  vs.map fun v => {v with co := ⟨v.co.x, v.co.y, v.co.z - 1⟩}

/-- A two-vertex mesh with one front-facing vertex, witness input for the
cache-and-restore claim. -/
def witnessFront : List Vert :=
  [⟨0, ⟨1, -1, 2⟩, false⟩, ⟨1, ⟨2, 1, 5⟩, false⟩]

/-- on_right_side from src/script/run.py. -/
def on_right_side (v : Vert) : Bool :=
  decide (v.co.x ≥ 0)

/-- on_left_side from src/script/run.py. -/
def on_left_side (v : Vert) : Bool :=
  decide (v.co.x ≤ 0)

/-- The edge loop of deselect_non_manifold_vertices from src/script/run.py: an
edge whose side check holds of either endpoint is deselected together with both
endpoint vertices (deselect_edge_and_associated_vertices); none models an
out-of-range endpoint index. -/
def deselect_edge_pass (side_check : Vert → Bool) :
    List Vert → List Edge → Option (List Vert × List Edge)
  | vs, [] => some (vs, [])
  | vs, e :: es =>
    (vs[e.v1]?).bind fun a =>
      (vs[e.v2]?).bind fun b =>
        if side_check a || side_check b then
          (deselect_edge_pass side_check
              ((vs.set e.v1 {a with sel := false}).set e.v2 {b with sel := false}) es).map
            fun p => (p.1, {e with sel := false} :: p.2)
        else
          (deselect_edge_pass side_check vs es).map fun p => (p.1, e :: p.2)

/-- deselect_non_manifold_vertices from src/script/run.py: pick the side check
from the flag, run the edge loop, then unselect every vertex on that side. -/
def deselect_non_manifold_vertices (m : Mesh) (deselect_left_side : Bool) : Option Mesh :=
  let side_check := if deselect_left_side then on_left_side else on_right_side
  (deselect_edge_pass side_check m.verts m.edges).map fun p =>
    ⟨p.1.map fun v => if side_check v then {v with sel := false} else v, p.2⟩

/-- Witness mesh for seam-side deselection: one vertex exactly at x = 0, one on
each side, everything selected. -/
def witnessMesh : Mesh :=
  ⟨[⟨0, ⟨0, 0, 0⟩, true⟩, ⟨1, ⟨1, 0, 0⟩, true⟩, ⟨2, ⟨-1, 0, 0⟩, true⟩],
   [⟨0, 1, true⟩, ⟨1, 2, true⟩]⟩

/-- What deselect_non_manifold_vertices produces from witnessMesh when
deselecting the left side. -/
def witnessMeshResult : Mesh :=
  ⟨[⟨0, ⟨0, 0, 0⟩, false⟩, ⟨1, ⟨1, 0, 0⟩, false⟩, ⟨2, ⟨-1, 0, 0⟩, false⟩],
   [⟨0, 1, false⟩, ⟨1, 2, false⟩]⟩

/-- Claim C1, counterexample: the legacy region selector find_nosepad_peak_height
of src/run.py does not return the band [peak - 0.05 d, peak + 0.05 d] around
peak = bottomOfBridge - 0.4 d: at bottomOfBridge = 1, bottomOfNosepad = 0 it
returns (0.65, 0.35) while the claimed band is (0.65, 0.55). -/
theorem C1_counterexample :
    find_nosepad_peak_height 1 0 ≠
      ((1 - 0.4 * ((1 : ℚ) - 0)) + 0.05 * ((1 : ℚ) - 0),
       (1 - 0.4 * ((1 : ℚ) - 0)) - 0.05 * ((1 : ℚ) - 0)) := by
  norm_num [find_nosepad_peak_height, Prod.ext_iff]

/-- Claim C1, amended: the script iteration's selector
find_nosepad_peak_vertices_z_range returns the band
[peak - 0.05 d, peak + 0.05 d] around peak = bottomOfBridge - 0.4 d
(as an upper, lower pair), while the legacy selector find_nosepad_peak_height
returns [peak - 0.15 d, peak + 0.15 d] around peak = bottomOfBridge - 0.5 d. -/
theorem C1_theorem (bob bon : ℚ) :
    find_nosepad_peak_vertices_z_range bob bon =
      ((bob - 0.4 * (bob - bon)) + 0.05 * (bob - bon),
       (bob - 0.4 * (bob - bon)) - 0.05 * (bob - bon)) ∧
    find_nosepad_peak_height bob bon =
      ((bob - 0.5 * (bob - bon)) + 0.15 * (bob - bon),
       (bob - 0.5 * (bob - bon)) - 0.15 * (bob - bon)) :=
  ⟨rfl, rfl⟩

/-- Claim C4: the two lens separation cuts are mirror images under x to -x.
The left lens piece is cut at x = -bridge_width/2 with tilt +bridge_slant and
clear_outer, the right lens piece at x = +bridge_width/2 with tilt
-bridge_slant and clear_inner, and a point lies on (respectively is removed
by) the left cut exactly when its x mirror lies on (is removed by) the right
cut. -/
theorem C4_theorem (bw s : ℚ) (p : Coord) :
    separate_left_lens_area bw s = bisect (-1 * bw / 2) false true s 0 ∧
    separate_right_lens_area bw s = bisect (bw / 2) true false (-1 * s) 0 ∧
    (onPlane (separate_left_lens_area bw s) p ↔
      onPlane (separate_right_lens_area bw s) (mirrorX p)) ∧
    (removedBy (separate_left_lens_area bw s) p ↔
      removedBy (separate_right_lens_area bw s) (mirrorX p)) := by
  refine ⟨rfl, rfl, ?_, ?_⟩
  · simp only [onPlane, separate_left_lens_area, separate_right_lens_area, bisect,
      Coord.sub, Coord.dot, mirrorX]
    constructor <;> intro h <;> nlinarith [h]
  · simp only [removedBy, separate_left_lens_area, separate_right_lens_area, bisect,
      Coord.sub, Coord.dot, mirrorX, Bool.false_eq_true, false_and, true_and, false_or,
      or_false]
    constructor <;> intro h <;> nlinarith [h]

/-- Claim C6: during assembly the bridge is translated along x by exactly
gap = 4 percent of the bridge piece's x extent relative to the left lens
(which is not translated along x), and the right lens by exactly twice that
gap. -/
theorem C6_theorem (d : ℚ) :
    (form_lens_and_bridge_align d).bridge = ⟨0.04 * d, 0, 0⟩ ∧
    (form_lens_and_bridge_align d).right_lens = ⟨2 * (0.04 * d), 0, 0⟩ ∧
    (form_lens_and_bridge_align d).left_lens = ⟨0, 0, 0⟩ ∧
    (form_lens_and_bridge_align d).bridge.x - (form_lens_and_bridge_align d).left_lens.x =
      form_lens_and_bridge_gap d := by
  refine ⟨rfl, ?_, rfl, ?_⟩
  · simp only [form_lens_and_bridge_align, align, align_right_lens_area_and_bridge,
      form_lens_and_bridge_gap]
    congr 1 <;> ring
  · simp only [form_lens_and_bridge_align, align, align_left_lens_area_and_bridge,
      form_lens_and_bridge_gap]
    ring

/-- Helper: the spread used for the 20-segment bridge resolution contains the
value k / 11 * s for every integer k in the trimmed range. -/
theorem mem_get_spread_20 (s : ℚ) (k : ℤ)
    (hk : k ∈ ((((List.range (2 * ((20 + 2) / 2) + 1)).map
      (fun i : ℕ => (i : ℤ) - ((((20 + 2) / 2 : ℕ)) : ℤ))).drop 1).dropLast)) :
    (k : ℚ) / ((((20 + 2) / 2 : ℕ)) : ℚ) * s ∈ get_spread_for_bridge s 20 :=
  List.mem_map_of_mem _ hk

/-- Claim C7: every slanted resolution bisection of the bridge piece passes
through the computed apex (0, 0, (bridge_width/2)/(-bridge_slant)); that apex is
the z intercept of the slanted boundary cut plane with normal (1, 0, slant)
through (-bridge_width/2, 0, 0) (the first cut_bridge plane); and the resolution
planes have pairwise different tilts where they differ, hence converge at the
apex rather than being parallel. -/
theorem C7_theorem (bw s : ℚ) (hs : s ≠ 0) :
    compute_convergence_point bw s = (bw / 2) / (-1 * s) ∧
    (∀ c ∈ bisect_bridge_for_resolution bw s,
      c.plane_co = ⟨0, 0, compute_convergence_point bw s⟩ ∧
      onPlane c ⟨0, 0, compute_convergence_point bw s⟩) ∧
    (bisect (-1 * bw / 2) true false s 0 ∈ cut_bridge bw s ∧
      onPlane (bisect (-1 * bw / 2) true false s 0)
        ⟨0, 0, compute_convergence_point bw s⟩) ∧
    (∃ c1 ∈ bisect_bridge_for_resolution bw s,
      ∃ c2 ∈ bisect_bridge_for_resolution bw s, c1.plane_no ≠ c2.plane_no) := by
  refine ⟨rfl, ?_, ⟨?_, ?_⟩, ?_⟩
  · intro c hc
    obtain ⟨t, _, rfl⟩ := List.mem_map.mp hc
    refine ⟨rfl, ?_⟩
    simp only [onPlane, bisect, Coord.sub, Coord.dot]
    ring
  · simp [cut_bridge]
  · simp only [onPlane, bisect, Coord.sub, Coord.dot, compute_convergence_point]
    field_simp
    ring
  · refine ⟨bisect 0 false false (((-10 : ℤ) : ℚ) / ((((20 + 2) / 2 : ℕ)) : ℚ) * s)
        (compute_convergence_point bw s), ?_,
      bisect 0 false false (((10 : ℤ) : ℚ) / ((((20 + 2) / 2 : ℕ)) : ℚ) * s)
        (compute_convergence_point bw s), ?_, ?_⟩
    · exact List.mem_map_of_mem _ (mem_get_spread_20 s (-10) (by decide))
    · exact List.mem_map_of_mem _ (mem_get_spread_20 s 10 (by decide))
    · intro h
      apply hs
      simp only [bisect, Coord.mk.injEq] at h
      have h' : ((-10 : ℚ) / 11) * s = ((10 : ℚ) / 11) * s := by
        have := h.2.2
        push_cast at this
        norm_num at this ⊢
        linarith [this]
      linarith [h']

/-- Claim C7, witness at bridge_width = 10, bridge_slant = 0.3. -/
theorem C7_witness :
    (0.3 : ℚ) ≠ 0 ∧
    (compute_convergence_point 10 0.3 = ((10 : ℚ) / 2) / (-1 * 0.3) ∧
    (∀ c ∈ bisect_bridge_for_resolution 10 0.3,
      c.plane_co = ⟨0, 0, compute_convergence_point 10 0.3⟩ ∧
      onPlane c ⟨0, 0, compute_convergence_point 10 0.3⟩) ∧
    (bisect (-1 * 10 / 2) true false 0.3 0 ∈ cut_bridge 10 0.3 ∧
      onPlane (bisect (-1 * 10 / 2) true false 0.3 0)
        ⟨0, 0, compute_convergence_point 10 0.3⟩) ∧
    (∃ c1 ∈ bisect_bridge_for_resolution 10 0.3,
      ∃ c2 ∈ bisect_bridge_for_resolution 10 0.3, c1.plane_no ≠ c2.plane_no)) :=
  ⟨by norm_num, C7_theorem 10 0.3 (by norm_num)⟩

/-- Claim C8, counterexample: at the out-of-range value bridge_width = -10 the
pipeline front end neither aborts with a ParameterError nor clamps: it proceeds
and produces its ordinary bisection plan, with the raw negative width in the
separation cut. -/
theorem C8_counterexample :
    form_lens_and_bridge_bisect_plan (-10) 0.3 ≠
      Except.error PipelineError.parameterError ∧
    (form_lens_and_bridge_bisect_plan (-10) 0.3).isOk = true ∧
    separate_left_lens_area (-10) 0.3 = bisect (-1 * (-10) / 2) false true 0.3 0 := by
  have h3 : (0.3 : ℚ) ≠ 0 := by norm_num
  refine ⟨?_, ?_, rfl⟩ <;>
    simp [form_lens_and_bridge_bisect_plan, h3, Except.isOk, Except.toBool]

/-- Claim C8, amended: the pipeline performs no parameter validation.  For every
bridge width (negative values included) and every nonzero slant it proceeds,
returning its ordinary bisection plan built from the raw parameter values;
no ParameterError abort path exists in the source. -/
theorem C8_theorem (bw s : ℚ) (hs : s ≠ 0) :
    form_lens_and_bridge_bisect_plan bw s =
      Except.ok (cut_bridge bw s ++ bisect_bridge_for_resolution bw s ++
        [separate_left_lens_area bw s, separate_right_lens_area bw s]) := by
  simp [form_lens_and_bridge_bisect_plan, hs]

/-- Claim C8, witness: the amended theorem applied at the out-of-range input
bridge_width = -10 with slant 0.3. -/
theorem C8_witness :
    ((-10 : ℚ) < 0) ∧ ((0.3 : ℚ) ≠ 0) ∧
    form_lens_and_bridge_bisect_plan (-10) 0.3 =
      Except.ok (cut_bridge (-10) 0.3 ++ bisect_bridge_for_resolution (-10) 0.3 ++
        [separate_left_lens_area (-10) 0.3, separate_right_lens_area (-10) 0.3]) :=
  ⟨by norm_num, by norm_num, C8_theorem (-10) 0.3 (by norm_num)⟩

/-- Helper: max? of a nonempty list of rationals is its maximum. -/
theorem rat_max?_spec (l : List ℚ) (h : l ≠ []) :
    ∃ M, l.max? = some M ∧ M ∈ l ∧ ∀ x ∈ l, x ≤ M := by
  cases hM : l.max? with
  | none => exact absurd (List.max?_eq_none_iff.mp hM) h
  | some M =>
    have hiff := (List.max?_eq_some_iff (fun a : ℚ => le_refl a)
      (fun a b => max_choice a b) (fun a b c => max_le_iff)).mp hM
    exact ⟨M, rfl, hiff.1, hiff.2⟩

/-- Helper: min? of a nonempty list of rationals is its minimum. -/
theorem rat_min?_spec (l : List ℚ) (h : l ≠ []) :
    ∃ m, l.min? = some m ∧ m ∈ l ∧ ∀ x ∈ l, m ≤ x := by
  cases hm : l.min? with
  | none =>
    have : l = [] := by
      cases l with
      | nil => rfl
      | cons a as => simp [List.min?] at hm
    exact absurd this h
  | some m =>
    have hiff := (List.min?_eq_some_iff (fun a : ℚ => le_refl a)
      (fun a b => min_choice a b) (fun a b c => le_min_iff)).mp hm
    exact ⟨m, rfl, hiff.1, hiff.2⟩

/-- Helper: find_max_and_min_x_coord_of_object rewritten by the two extrema. -/
theorem find_max_and_min_eq (verts : List Vert) (M m : ℚ)
    (hM : (verts.map fun v => v.co.x).max? = some M)
    (hm : (verts.map fun v => v.co.x).min? = some m) :
    find_max_and_min_x_coord_of_object verts = some (M, m) := by
  unfold find_max_and_min_x_coord_of_object
  rw [hM, hm]

/-- Claim C5: the legacy orchestrator run accepts a boolean toggle
protruded_bridge, and the bridge protrusion deformation (select the mid-bridge
band, translate with proportional falloff) occurs in the executed operator
sequence exactly when the toggle is enabled; with the toggle disabled neither
the protrusion nor its selection step occurs. -/
theorem C5_theorem (b : Bool) :
    (PipelineOp.protrude_bridge_op ∈ run_ops b ↔ b = true) ∧
    (PipelineOp.select_mid_bridge ∈ run_ops b ↔ b = true) := by
  cases b <;> decide

/-- Claim C10: on any lens piece with at least one vertex, the 18-percent
nosepad x-range contains the x coordinate of the vertex attaining the anchoring
extreme, so find_bottom_of_nosepad_region minimises over a nonempty set and
returns a value. -/
theorem C10_theorem (verts : List Vert) (left : Bool) (h : verts ≠ []) :
    ∃ mx mn, find_nosepad_x_coord_range verts left = some (mx, mn) ∧
      (∃ v ∈ verts, in_range mx mn v.co.x = true) ∧
      (∃ z, find_bottom_of_nosepad_region verts mx mn = some z) := by
  have hxs : (verts.map fun v => v.co.x) ≠ [] := by
    simpa using h
  obtain ⟨M, hM, hMmem, hMub⟩ := rat_max?_spec _ hxs
  obtain ⟨m, hm, hmmem, hmlb⟩ := rat_min?_spec _ hxs
  have hmM : m ≤ M := hmlb M hMmem
  have hrange := find_max_and_min_eq verts M m hM hm
  have hbot : ∀ mx mn : ℚ, (∃ v ∈ verts, in_range mx mn v.co.x = true) →
      ∃ z, find_bottom_of_nosepad_region verts mx mn = some z := by
    intro mx mn ⟨v, hv, hvr⟩
    have hfil : v ∈ verts.filter fun w => in_range mx mn w.co.x :=
      List.mem_filter.mpr ⟨hv, hvr⟩
    have hne : ((verts.filter fun w => in_range mx mn w.co.x).map fun w => w.co.z) ≠ [] := by
      have : (verts.filter fun w => in_range mx mn w.co.x) ≠ [] :=
        List.ne_nil_of_mem hfil
      simpa using this
    obtain ⟨z, hz, _, _⟩ := rat_min?_spec _ hne
    exact ⟨z, hz⟩
  cases left with
  | true =>
    obtain ⟨v, hv, hvx⟩ := List.mem_map.mp hMmem
    refine ⟨M, M - 0.18 * (M - m), ?_, ?_, ?_⟩
    · unfold find_nosepad_x_coord_range
      rw [hrange]
      simp
    · refine ⟨v, hv, ?_⟩
      simp only [in_range, hvx, Bool.and_eq_true, decide_eq_true_eq, ge_iff_le]
      constructor
      · exact le_refl M
      · nlinarith [hmM]
    · exact hbot _ _ ⟨v, hv, by
        simp only [in_range, hvx, Bool.and_eq_true, decide_eq_true_eq, ge_iff_le]
        exact ⟨le_refl M, by nlinarith [hmM]⟩⟩
  | false =>
    obtain ⟨v, hv, hvx⟩ := List.mem_map.mp hmmem
    refine ⟨m + 0.18 * (M - m), m, ?_, ?_, ?_⟩
    · unfold find_nosepad_x_coord_range
      rw [hrange]
      simp
    · refine ⟨v, hv, ?_⟩
      simp only [in_range, hvx, Bool.and_eq_true, decide_eq_true_eq, ge_iff_le]
      constructor
      · nlinarith [hmM]
      · exact le_refl m
    · exact hbot _ _ ⟨v, hv, by
        simp only [in_range, hvx, Bool.and_eq_true, decide_eq_true_eq, ge_iff_le]
        exact ⟨by nlinarith [hmM], le_refl m⟩⟩

/-- Claim C10, witness on the concrete two-vertex lens piece. -/
theorem C10_witness :
    witnessLens ≠ [] ∧
    ∃ mx mn, find_nosepad_x_coord_range witnessLens true = some (mx, mn) ∧
      (∃ v ∈ witnessLens, in_range mx mn v.co.x = true) ∧
      (∃ z, find_bottom_of_nosepad_region witnessLens mx mn = some z) :=
  ⟨by simp [witnessLens], C10_theorem witnessLens true (by simp [witnessLens])⟩

/-- Claim C2, counterexample: on a concrete lens piece with bottomOfBridge = 10,
the nosepad x range is [82, 100] and vertex 3 at (90, 0, 2) is a nosepad-region
vertex below the bridge bottom, yet the selection in force when
create_left_nosepad invokes the shrink (src/script/run.py) leaves it unselected:
only the peak-band vertex 4 is selected.  The shrink is therefore not applied to
a selection of all nosepad-region vertices below bottomOfBridge. -/
theorem C2_counterexample :
    find_left_nosepad_x_coord_range counterLens = some (100, 82) ∧
    in_range 100 82 90 = true ∧ ((2 : ℚ) < 10) ∧
    (create_left_nosepad_shrink_selection counterLens 10).map (fun vs => vs.map Vert.sel) =
      some [false, false, false, false, true] := by
  refine ⟨?_, ?_, by norm_num, ?_⟩
  · norm_num [find_left_nosepad_x_coord_range, find_nosepad_x_coord_range,
      find_max_and_min_x_coord_of_object, counterLens, List.max?, List.min?]
  · norm_num [in_range]
  · norm_num [create_left_nosepad_shrink_selection, find_left_nosepad_x_coord_range,
      find_nosepad_x_coord_range, find_max_and_min_x_coord_of_object,
      select_nosepad_peak_vertices, find_bottom_of_nosepad_region,
      find_nosepad_peak_vertices_z_range, deselect_all_vertices, counterLens, in_range,
      List.max?, List.min?, List.filter]

/-- Claim C2, amended: the legacy pipeline (run in src/run.py) applies the
shrink to the selection of listed nosepad points strictly below bottomOfBridge
and then the extrude to a re-derived selection of points inside the peak band;
the script pipeline (create_left_nosepad in src/script/run.py) derives a single
selection, the peak z band within the nosepad x range, and applies both the
shrink and the extrude to that same selection, with no selection step in
between. -/
theorem C2_theorem (verts : List Vert) (left_pts : List ℕ) (bob mx mn bon : ℚ)
    (hr : find_left_nosepad_x_coord_range verts = some (mx, mn))
    (hb : find_bottom_of_nosepad_region verts mx mn = some bon) :
    ((run_left_nosepad_shrink_selection verts left_pts bob).map
        (fun v => (v.index, v.co, v.sel)) =
      verts.map (fun v =>
        (v.index, v.co, left_pts.contains v.index && decide (v.co.z < bob)))) ∧
    ((run_left_nosepad_extrude_selection verts left_pts bob bon).map
        (fun v => (v.index, v.co, v.sel)) =
      verts.map (fun v =>
        (v.index, v.co, left_pts.contains v.index &&
          (decide (v.co.z ≤ (find_nosepad_peak_height bob bon).1) &&
           decide (v.co.z ≥ (find_nosepad_peak_height bob bon).2))))) ∧
    (create_left_nosepad_shrink_selection verts bob =
      some (verts.map fun v =>
        ⟨v.index, v.co,
          in_range (find_nosepad_peak_vertices_z_range bob bon).1
            (find_nosepad_peak_vertices_z_range bob bon).2 v.co.z &&
          in_range mx mn v.co.x⟩)) ∧
    ((∃ l1 l2, create_left_nosepad_ops =
        l1 ++ [PipelineOp.shrink_pad, PipelineOp.extrude_pad] ++ l2) ∧
     (∃ l1 l2, run_left_nosepad_ops =
        l1 ++ [PipelineOp.shrink_pad, PipelineOp.deselect, PipelineOp.select_peak,
               PipelineOp.extrude_pad] ++ l2)) := by
  refine ⟨?_, ?_, ?_, ?_⟩
  · unfold run_left_nosepad_shrink_selection select_all_nosepad_points deselect_all
    rw [List.map_map, List.map_map]
    refine List.map_congr_left ?_
    intro v _
    dsimp only [Function.comp]
    cases hc : left_pts.contains v.index && decide (v.co.z < bob) <;> simp
  · unfold run_left_nosepad_extrude_selection select_nosepad_extrusion_points deselect_all
    rw [List.map_map, List.map_map]
    refine List.map_congr_left ?_
    intro v _
    dsimp only [Function.comp]
    cases hc : left_pts.contains v.index &&
        (decide (v.co.z ≤ (find_nosepad_peak_height bob bon).1) &&
         decide (v.co.z ≥ (find_nosepad_peak_height bob bon).2)) <;> simp
  · have hstep : create_left_nosepad_shrink_selection verts bob =
        select_nosepad_peak_vertices verts bob mx mn := by
      unfold create_left_nosepad_shrink_selection
      rw [hr]
    rw [hstep]
    unfold select_nosepad_peak_vertices
    rw [hb]
    dsimp only
    rw [Option.some.injEq]
    unfold deselect_all_vertices
    rw [List.map_map]
    refine List.map_congr_left ?_
    intro v _
    dsimp only [Function.comp]
    cases hc : in_range (find_nosepad_peak_vertices_z_range bob bon).1
        (find_nosepad_peak_vertices_z_range bob bon).2 v.co.z &&
        in_range mx mn v.co.x <;> simp
  · exact ⟨⟨[PipelineOp.cache_vertices, PipelineOp.select_peak],
        [PipelineOp.reset_norm_op], rfl⟩,
      ⟨[PipelineOp.deselect, PipelineOp.select_below_bridge],
        [PipelineOp.deselect], rfl⟩⟩

/-- Claim C2, witness: the script shrink-time selection on the concrete lens
piece is exactly the peak-band selection. -/
theorem C2_witness :
    find_left_nosepad_x_coord_range counterLens = some (100, 82) ∧
    find_bottom_of_nosepad_region counterLens 100 82 = some 0 ∧
    create_left_nosepad_shrink_selection counterLens 10 =
      some (counterLens.map fun v =>
        ⟨v.index, v.co,
          in_range (find_nosepad_peak_vertices_z_range 10 0).1
            (find_nosepad_peak_vertices_z_range 10 0).2 v.co.z &&
          in_range 100 82 v.co.x⟩) := by
  have hr : find_left_nosepad_x_coord_range counterLens = some (100, 82) := by
    norm_num [find_left_nosepad_x_coord_range, find_nosepad_x_coord_range,
      find_max_and_min_x_coord_of_object, counterLens, List.max?, List.min?]
  have hb : find_bottom_of_nosepad_region counterLens 100 82 = some 0 := by
    norm_num [find_bottom_of_nosepad_region, counterLens, in_range, List.min?,
      List.filter]
  exact ⟨hr, hb, (C2_theorem counterLens [2, 3, 4] 10 100 82 0 hr hb).2.2.1⟩

/-- Helper: lookup in an association list with nodup keys finds any stored pair. -/
theorem lookup_eq_some_of_mem_nodup {β : Type} (l : List (ℕ × β))
    (hn : (l.map Prod.fst).Nodup) (k : ℕ) (b : β) (hmem : (k, b) ∈ l) :
    l.lookup k = some b := by
  induction l with
  | nil => simp at hmem
  | cons hd tl ih =>
    simp only [List.map_cons, List.nodup_cons] at hn
    rcases List.mem_cons.mp hmem with heq | htl
    · cases heq
      simp [List.lookup]
    · have hk : (k == hd.1) = false := by
        refine beq_eq_false_iff_ne.mpr ?_
        intro h
        exact hn.1 (h ▸ List.mem_map.mpr ⟨(k, b), htl, rfl⟩)
      cases hd with
      | mk k0 b0 =>
        simp only at hk
        simp only [List.lookup, hk]
        exact ih hn.2 htl

/-- Claim C3: every vertex with y ≤ 0 at cache time is in the cache produced by
cache_non_nosepad_vertices, and after any two index-preserving deformations
(the shrink and the extrude) reset_normal_vertices restores each cached vertex
to exactly its cached pre-synthesis position, unconditionally over the full
cache. -/
theorem C3_theorem (verts : List Vert) (mx mn bz : ℚ) (d1 d2 : List Vert → List Vert)
    (hnd : (verts.map Vert.index).Nodup)
    (h1 : (d1 verts).map Vert.index = verts.map Vert.index)
    (h2 : (d2 (d1 verts)).map Vert.index = (d1 verts).map Vert.index) :
    (∀ v ∈ verts, v.co.y ≤ 0 →
      (v.index, v.co) ∈ cache_non_nosepad_vertices verts mx mn bz) ∧
    (∀ v ∈ verts, v.co.y ≤ 0 →
      ∃ w ∈ reset_normal_vertices (d2 (d1 verts))
          (cache_non_nosepad_vertices verts mx mn bz),
        w.index = v.index ∧ w.co = v.co) := by
  have hcache : ∀ v ∈ verts, v.co.y ≤ 0 →
      (v.index, v.co) ∈ cache_non_nosepad_vertices verts mx mn bz := by
    intro v hv hy
    unfold cache_non_nosepad_vertices
    exact List.mem_map_of_mem _ (List.mem_filter.mpr ⟨hv, decide_eq_true hy⟩)
  refine ⟨hcache, ?_⟩
  intro v hv hy
  have hkeys : ((cache_non_nosepad_vertices verts mx mn bz).map Prod.fst).Nodup := by
    have hsub : ((verts.filter fun w => decide (w.co.y ≤ 0)).map Vert.index).Sublist
        (verts.map Vert.index) :=
      List.Sublist.map _ (List.filter_sublist verts)
    have hrw : (cache_non_nosepad_vertices verts mx mn bz).map Prod.fst =
        (verts.filter fun w => decide (w.co.y ≤ 0)).map Vert.index := by
      unfold cache_non_nosepad_vertices
      rw [List.map_map]
      rfl
    rw [hrw]
    exact hnd.sublist hsub
  have hlk : (cache_non_nosepad_vertices verts mx mn bz).lookup v.index = some v.co :=
    lookup_eq_some_of_mem_nodup _ hkeys _ _ (hcache v hv hy)
  have hidx : v.index ∈ (d2 (d1 verts)).map Vert.index := by
    rw [h2, h1]
    exact List.mem_map_of_mem _ hv
  obtain ⟨u, hu, hui⟩ := List.mem_map.mp hidx
  unfold reset_normal_vertices
  refine ⟨_, List.mem_map_of_mem _ hu, ?_⟩
  rw [hui, hlk]
  exact ⟨rfl, rfl⟩

/-- Claim C3, witness: a concrete two-vertex mesh, one front-facing vertex,
subjected to two concrete deformations and restored. -/
theorem C3_witness :
    ((witnessFront.map Vert.index).Nodup) ∧
    ((witnessDeform1 witnessFront).map Vert.index = witnessFront.map Vert.index) ∧
    ((witnessDeform2 (witnessDeform1 witnessFront)).map Vert.index =
      (witnessDeform1 witnessFront).map Vert.index) ∧
    (∀ v ∈ witnessFront, v.co.y ≤ 0 →
      (v.index, v.co) ∈ cache_non_nosepad_vertices witnessFront 100 82 10) ∧
    (∀ v ∈ witnessFront, v.co.y ≤ 0 →
      ∃ w ∈ reset_normal_vertices (witnessDeform2 (witnessDeform1 witnessFront))
          (cache_non_nosepad_vertices witnessFront 100 82 10),
        w.index = v.index ∧ w.co = v.co) := by
  have h := C3_theorem witnessFront 100 82 10 witnessDeform1 witnessDeform2
    (by decide) rfl rfl
  exact ⟨by decide, rfl, rfl, h.1, h.2⟩

/-- Helper: setting a list element to the value it already holds is a no-op. -/
theorem list_set_self {α : Type} : ∀ (l : List α) (i : ℕ) (a : α),
    l[i]? = some a → l.set i a = l := by
  intro l
  induction l with
  | nil =>
    intro i a h
    simp at h
  | cons x xs ih =>
    intro i a h
    cases i with
    | zero =>
      simp only [List.getElem?_cons_zero, Option.some.injEq] at h
      simp [List.set, h]
    | succ n =>
      simp only [List.getElem?_cons_succ] at h
      simp [List.set, ih n a h]

/-- Helper: a set whose new value has the same image under f leaves l.map f
unchanged. -/
theorem map_set_preserve {α : Type} (f : Vert → α) (vs : List Vert) (i : ℕ) (w : Vert)
    (h : (vs.map f)[i]? = some (f w)) : (vs.set i w).map f = vs.map f := by
  rw [List.map_set]
  exact list_set_self _ _ _ h

/-- Helper: equal coordinate images give coordinate-equal lookups. -/
theorem co_getElem_of_map_co_eq {vs1 vs : List Vert}
    (h : vs1.map Vert.co = vs.map Vert.co) (j : ℕ) (a : Vert) (ha : vs[j]? = some a) :
    ∃ a1, vs1[j]? = some a1 ∧ a1.co = a.co := by
  have hj := congrArg (fun l => l[j]?) h
  simp only [List.getElem?_map, ha] at hj
  cases h1 : vs1[j]? with
  | none =>
    rw [h1] at hj
    simp at hj
  | some a1 =>
    rw [h1] at hj
    simp at hj
    exact ⟨a1, rfl, hj⟩

/-- Helper: the edge loop preserves vertex coordinates and unselects every edge
with an endpoint on the checked side. -/
theorem deselect_edge_pass_spec (side_check : Vert → Bool)
    (hside : ∀ v w : Vert, v.co = w.co → side_check v = side_check w) :
    ∀ (es : List Edge) (vs vs' : List Vert) (es' : List Edge),
      deselect_edge_pass side_check vs es = some (vs', es') →
      (vs'.map Vert.co = vs.map Vert.co) ∧
      (∀ (i : ℕ) (hi : i < es.length) (hi' : i < es'.length) (a b : Vert),
        vs[(es.get ⟨i, hi⟩).v1]? = some a → vs[(es.get ⟨i, hi⟩).v2]? = some b →
        (side_check a || side_check b) = true → (es'.get ⟨i, hi'⟩).sel = false) := by
  intro es
  induction es with
  | nil =>
    intro vs vs' es' h
    simp only [deselect_edge_pass, Option.some.injEq, Prod.mk.injEq] at h
    obtain ⟨h1, h2⟩ := h
    subst h1
    subst h2
    exact ⟨rfl, fun i hi => absurd hi (by simp)⟩
  | cons e es ih =>
    intro vs vs' es' h
    rw [deselect_edge_pass] at h
    cases hv1 : vs[e.v1]? with
    | none =>
      rw [hv1] at h
      simp at h
    | some a =>
      cases hv2 : vs[e.v2]? with
      | none =>
        rw [hv1, hv2] at h
        simp at h
      | some b =>
        rw [hv1, hv2] at h
        simp only [Option.some_bind] at h
        by_cases hcond : (side_check a || side_check b) = true
        · rw [if_pos hcond] at h
          obtain ⟨⟨vs0, es0⟩, hrec, hpq⟩ := Option.map_eq_some'.mp h
          obtain ⟨h1, h2⟩ := Prod.mk.inj hpq
          subst h1
          subst h2
          have hco1 : ((vs.set e.v1 {a with sel := false}).map Vert.co) = vs.map Vert.co := by
            refine map_set_preserve Vert.co vs e.v1 _ ?_
            rw [List.getElem?_map, hv1]
            rfl
          have hco2 : (((vs.set e.v1 {a with sel := false}).set e.v2
              {b with sel := false}).map Vert.co) = vs.map Vert.co := by
            refine Eq.trans (map_set_preserve Vert.co _ e.v2 _ ?_) hco1
            rw [hco1, List.getElem?_map, hv2]
            rfl
          obtain ⟨ih_co, ih_edges⟩ := ih _ _ _ hrec
          refine ⟨ih_co.trans hco2, ?_⟩
          intro i hi hi' a' b' ha' hb' hc'
          cases i with
          | zero => rfl
          | succ n =>
            have hi2 : n < es.length := by
              simpa using hi
            have hi2' : n < es0.length := by
              simpa using hi'
            rw [List.get_cons_succ] at ha' hb'
            obtain ⟨a1, ha1, ha1co⟩ := co_getElem_of_map_co_eq hco2 _ _ ha'
            obtain ⟨b1, hb1, hb1co⟩ := co_getElem_of_map_co_eq hco2 _ _ hb'
            have hc1 : (side_check a1 || side_check b1) = true := by
              rw [hside a1 a' ha1co, hside b1 b' hb1co]
              exact hc'
            rw [List.get_cons_succ]
            exact ih_edges n hi2 hi2' a1 b1 ha1 hb1 hc1
        · rw [if_neg hcond] at h
          obtain ⟨⟨vs0, es0⟩, hrec, hpq⟩ := Option.map_eq_some'.mp h
          obtain ⟨h1, h2⟩ := Prod.mk.inj hpq
          subst h1
          subst h2
          obtain ⟨ih_co, ih_edges⟩ := ih _ _ _ hrec
          refine ⟨ih_co, ?_⟩
          intro i hi hi' a' b' ha' hb' hc'
          cases i with
          | zero =>
            have hae : (e :: es).get ⟨0, hi⟩ = e := rfl
            rw [hae, hv1] at ha'
            rw [hae, hv2] at hb'
            obtain rfl := Option.some.inj ha'
            obtain rfl := Option.some.inj hb'
            exact absurd hc' hcond
          | succ n =>
            have hi2 : n < es.length := by
              simpa using hi
            have hi2' : n < es0.length := by
              simpa using hi'
            rw [List.get_cons_succ] at ha' hb'
            rw [List.get_cons_succ]
            exact ih_edges n hi2 hi2' a' b' ha' hb' hc'

/-- Claim C9: after deselect_non_manifold_vertices with a side flag, every
vertex satisfying the deselected side's predicate (x ≤ 0 for the left side,
x ≥ 0 for the right) is unselected; every edge with at least one endpoint on
that side is unselected; and a vertex at exactly x = 0 satisfies both side
predicates, hence is deselected whichever seam is being stitched. -/
theorem C9_theorem (m : Mesh) (flag : Bool) (m' : Mesh)
    (h : deselect_non_manifold_vertices m flag = some m') :
    (∀ v ∈ m'.verts,
      (if flag then on_left_side else on_right_side) v = true → v.sel = false) ∧
    (∀ (i : ℕ) (hi : i < m.edges.length) (hi' : i < m'.edges.length) (a b : Vert),
      m.verts[(m.edges.get ⟨i, hi⟩).v1]? = some a →
      m.verts[(m.edges.get ⟨i, hi⟩).v2]? = some b →
      ((if flag then on_left_side else on_right_side) a ||
       (if flag then on_left_side else on_right_side) b) = true →
      (m'.edges.get ⟨i, hi'⟩).sel = false) ∧
    (∀ v : Vert, v.co.x = 0 → on_left_side v = true ∧ on_right_side v = true) := by
  have hside : ∀ v w : Vert, v.co = w.co →
      (if flag then on_left_side else on_right_side) v =
      (if flag then on_left_side else on_right_side) w := by
    intro v w hvw
    cases flag <;> simp [on_left_side, on_right_side, hvw]
  simp only [deselect_non_manifold_vertices] at h
  obtain ⟨⟨vs, es⟩, hpass, hg⟩ := Option.map_eq_some'.mp h
  subst hg
  obtain ⟨hco, hedges⟩ := deselect_edge_pass_spec _ hside m.edges m.verts vs es hpass
  refine ⟨?_, ?_, ?_⟩
  · intro v hv hsv
    obtain ⟨v0, hv0, rfl⟩ := List.mem_map.mp hv
    by_cases h0 : (if flag then on_left_side else on_right_side) v0 = true
    · simp [h0]
    · rw [if_neg h0] at hsv ⊢
      exact absurd hsv h0
  · intro i hi hi' a b ha hb hc
    exact hedges i hi hi' a b ha hb hc
  · intro v hv0
    constructor <;> simp [on_left_side, on_right_side, hv0]

/-- Claim C9, witness: the concrete mesh with a vertex at x = 0, processed with
the left-side flag. -/
theorem C9_witness :
    deselect_non_manifold_vertices witnessMesh true = some witnessMeshResult ∧
    (∀ v ∈ witnessMeshResult.verts,
      (if true then on_left_side else on_right_side) v = true → v.sel = false) ∧
    (∀ (i : ℕ) (hi : i < witnessMesh.edges.length)
        (hi' : i < witnessMeshResult.edges.length) (a b : Vert),
      witnessMesh.verts[(witnessMesh.edges.get ⟨i, hi⟩).v1]? = some a →
      witnessMesh.verts[(witnessMesh.edges.get ⟨i, hi⟩).v2]? = some b →
      ((if true then on_left_side else on_right_side) a ||
       (if true then on_left_side else on_right_side) b) = true →
      (witnessMeshResult.edges.get ⟨i, hi'⟩).sel = false) ∧
    (∀ v : Vert, v.co.x = 0 → on_left_side v = true ∧ on_right_side v = true) := by
  have h : deselect_non_manifold_vertices witnessMesh true = some witnessMeshResult := by
    norm_num [deselect_non_manifold_vertices, deselect_edge_pass, on_left_side,
      on_right_side, witnessMesh, witnessMeshResult, List.set]
  obtain ⟨h1, h2, h3⟩ := C9_theorem witnessMesh true witnessMeshResult h
  exact ⟨h, h1, h2, h3⟩
